import Mathlib

/-!
Shallow embedding of the video-publishing pipeline's choreography core
(stage handlers, error aggregation, watcher deduplication, storage adapter,
filename generation), translated from the TypeScript sources under
`src/backend/src`.  External services (the generative-AI APIs, the YouTube
API, OAuth, the event bus, the per-trace state store) are modelled as
explicit oracle parameters: each external call's outcome is an input to the
embedded handler, and each handler is a pure function from its event input,
the pre-invocation trace state and the oracle outcomes to the list of state
writes it performs and the list of events it emits, in source order.
-/

namespace VideoPipeline

/-- The `status` enum values written by the handlers, as observed in the
source (`uploading` is written by the upstream upload stage; the remaining
values appear literally in the handlers embedded below). -/
inductive Status
  | uploading
  | generatingThumbnail
  | thumbnailGenerated
  | thumbnailDescriptionGenerated
  | generatingTitle
  | titleGenerated
  | uploadingToYoutube
  | completed
  | failed
  | thumbnailGenerationFailed
  | titleGenerationFailed
  | uploadFailed
  deriving DecidableEq, Repr

/-- The `status` sub-record written to the trace's `status` field. -/
structure StatusRecord where
  status : Status
  updatedAt : String
  error : Option String := none
  failedStep : Option String := none
  videoId : Option String := none
  deriving DecidableEq, Repr

/-- Thumbnail format detected from the generative response's mime type
(`SupportedThumbnailFormat` in `shared/interfaces.ts`). -/
inductive ThumbFormat
  | jpeg
  | png
  | webp
  deriving DecidableEq, Repr

/-- The record stored under the trace's `thumbnail` field.  The `base64`
field is read (optionally) by the YouTube upload stage; the thumbnail
generator never writes it, which is modelled by its `none` default. -/
structure ThumbnailRecord where
  description : Option String := none
  storageKey : Option String := none
  url : Option String := none
  format : Option ThumbFormat := none
  size : Option Nat := none
  generatedAt : String := ""
  isPlaceholder : Bool := false
  base64 : Option String := none
  deriving DecidableEq, Repr

/-- The record stored under the trace's `generatedTitle` field. -/
structure GeneratedTitle where
  title : String
  isGenerated : Bool
  generatedAt : String := ""
  previousTitle : String := ""
  allTitles : List String := []
  deriving DecidableEq, Repr

/-- The trace's `metadata` field.  The empty string models a JS
`undefined`, mirroring the truthiness checks in the source. -/
structure Metadata where
  title : String := ""
  description : String := ""
  tags : List String := []
  privacy : String := ""
  autoGenerateTitle : Bool := false
  deriving DecidableEq, Repr

/-- The trace's `videoData` field (base64 buffer content kept opaque). -/
structure VideoData where
  fileName : String
  buffer : String := ""
  mimetype : String := ""
  deriving DecidableEq, Repr

/-- The trace's `generatedContent` field, read by the title stage. -/
structure GeneratedContent where
  title : String := ""
  description : String := ""
  tags : List String := []
  deriving DecidableEq, Repr

/-- The record stored under the trace's `uploadResult` field. -/
structure UploadResult where
  videoId : Option String := none
  videoUrl : String
  channelId : Option String := none
  channelTitle : Option String := none
  publishedAt : Option String := none
  thumbnailUploaded : Bool
  uploadedAt : String := ""
  deriving DecidableEq, Repr

/-- One entry of the trace's append-only `errors` list
(`ErrorLog` in `error-handeler.step.ts`). -/
structure ErrorLog where
  traceId : String
  step : String
  error : String
  timestamp : String
  resolved : Bool
  details : Option String := none
  deriving DecidableEq, Repr

/-- The record stored under the trace's `errorSummary` field. -/
structure ErrorSummary where
  totalErrors : Nat
  lastError : ErrorLog
  failedAt : String
  deriving DecidableEq, Repr

/-- The shared per-trace state document: one optional slot per named field,
plus the `errors` list (absent and empty are conflated because every source
read applies `|| []`). -/
structure TraceState where
  videoData : Option VideoData := none
  metadata : Option Metadata := none
  generatedContent : Option GeneratedContent := none
  thumbnail : Option ThumbnailRecord := none
  generatedTitle : Option GeneratedTitle := none
  uploadResult : Option UploadResult := none
  status : Option StatusRecord := none
  errors : List ErrorLog := []
  errorSummary : Option ErrorSummary := none
  deriving DecidableEq, Repr

/-- One `state.set` performed by a handler, tagged by field name. -/
inductive FieldWrite
  | statusW (r : StatusRecord)
  | thumbnailW (r : ThumbnailRecord)
  | generatedTitleW (r : GeneratedTitle)
  | metadataW (m : Metadata)
  | uploadResultW (r : UploadResult)
  | errorsW (l : List ErrorLog)
  | errorSummaryW (s : ErrorSummary)
  deriving DecidableEq, Repr

/-- Payload of the `thumbnail.image.generated` topic. -/
structure ThumbGeneratedPayload where
  traceId : String
  thumbnailStorageKey : Option String
  thumbnailUrl : Option String
  hasImage : Bool
  description : Option String := none
  deriving DecidableEq, Repr

/-- Every event topic emitted by the embedded handlers, with its payload. -/
inductive EmittedEvent
  | thumbnailImageGenerated (p : ThumbGeneratedPayload)
  | thumbnailImageGenerationError (traceId error step : String)
  | finalTitleGenerated (traceId title : String)
  | finalTitleGenerationError (traceId error step : String)
  | youtubeUploadCompleted (traceId : String) (videoId : Option String)
      (videoUrl title privacy : String) (thumbnailUploaded : Bool)
  | youtubeUploadError (traceId error : String)
  | fileNewDetected (fileName filePath : String)
  deriving DecidableEq, Repr

/-- Result of one handler invocation: the `state.set` calls it performed and
the events it emitted, both in source order. -/
abbrev HandlerOutcome := List FieldWrite × List EmittedEvent

/-- JS `a || b` on strings (empty string is falsy). -/
def jsOr (a b : String) : String := if a = "" then b else a

/-- JS `a || b` where `a` is an optional string (undefined or empty is
falsy). -/
def jsOrOpt (a : Option String) (b : String) : String :=
  match a with
  | some s => if s = "" then b else s
  | none => b

/-- Applying one recorded `state.set` to the trace document. -/
def applyWrite (st : TraceState) : FieldWrite → TraceState
  | .statusW r => { st with status := some r }
  | .thumbnailW r => { st with thumbnail := some r }
  | .generatedTitleW r => { st with generatedTitle := some r }
  | .metadataW m => { st with metadata := some m }
  | .uploadResultW r => { st with uploadResult := some r }
  | .errorsW l => { st with errors := l }
  | .errorSummaryW s => { st with errorSummary := some s }

/-- Applying a handler's write list to the trace document, in order. -/
def applyWrites (st : TraceState) (ws : List FieldWrite) : TraceState :=
  ws.foldl applyWrite st

/-- The sequence of `status` values among a write list, in write order. -/
def statusWrites (ws : List FieldWrite) : List Status :=
  ws.filterMap fun w =>
    match w with
    | .statusW r => some r.status
    | _ => none

/-! ### Stage 03.1: thumbnail generation (`03.1-generate-thumbnail.step.ts`)

The generative call's response is abstracted as the optional list of parts
of the first candidate (`result.candidates[0]?.content?.parts`); the
follow-up description call and the storage upload are abstracted as
`Except` oracle outcomes. -/

/-- `part.inlineData` of a generative response part. -/
structure InlineData where
  data : Option String := none
  mimeType : Option String := none
  deriving DecidableEq, Repr

/-- One part of the first candidate's content. -/
structure GenPart where
  inlineData : Option InlineData := none
  deriving DecidableEq, Repr

/-- Payload of the upstream `prompts.generated` topic consumed by the
thumbnail and title stages (prompt-text fields are only interpolated into
the outbound AI request, which is abstracted, so they are kept opaque). -/
structure PromptsInput where
  traceId : String
  title : String := ""
  description : String := ""
  tags : List String := []
  thumbnailPrompt : String := ""
  thumbnailStyle : String := ""
  thumbnailColors : List String := []
  thumbnailTextOverlay : String := ""
  deriving DecidableEq, Repr

/-- Whether `needle` occurs as a contiguous prefix of `hay`. -/
def charsPrefixOf : List Char → List Char → Bool
  | [], _ => true
  | _ :: _, [] => false
  | a :: as, b :: bs => a == b && charsPrefixOf as bs

/-- Whether `needle` occurs contiguously anywhere in `hay`. -/
def charsInfixOf (needle : List Char) : List Char → Bool
  | [] => charsPrefixOf needle []
  | b :: bs => charsPrefixOf needle (b :: bs) || charsInfixOf needle bs

/-- JS `hay.includes(needle)` on strings. -/
def strIncludes (hay needle : String) : Bool :=
  charsInfixOf needle.toList hay.toList

/-- JS `s.split(sep)` for a one-character separator, on character lists:
separators delimit (possibly empty) segments and the result is never
empty. -/
def splitOnCharAux (sep : Char) : List Char → List Char → List (List Char)
  | [], acc => [acc.reverse]
  | c :: cs, acc =>
    if c == sep then acc.reverse :: splitOnCharAux sep cs []
    else splitOnCharAux sep cs (c :: acc)

/-- JS `s.split(sep)` for a one-character separator. -/
def jsSplitChar (sep : Char) (s : String) : List String :=
  (splitOnCharAux sep s.data []).map String.mk

/-- JS `s.toLowerCase()` (basic-latin case folding, as in the runtime's
use on ASCII file extensions). -/
def jsToLower (s : String) : String := String.mk (s.data.map Char.toLower)

/-- Replace the first occurrence of `needle` in a character list by
`repl` (JS `String.prototype.replace` with a string pattern replaces only
the first occurrence). -/
def replaceFirstChars (needle repl : List Char) : List Char → List Char
  | [] => []
  | c :: cs =>
    if charsPrefixOf needle (c :: cs) then repl ++ (c :: cs).drop needle.length
    else c :: replaceFirstChars needle repl cs

/-- JS `s.replace(pattern, replacement)` with a string pattern. -/
def jsReplaceFirst (s pattern replacement : String) : String :=
  String.mk (replaceFirstChars pattern.data replacement.data s.data)

/-- The source's mime-type sniffing: `png` if the mime type mentions png,
`webp` if it mentions webp, `jpeg` otherwise. -/
def detectFormat (mimeType : String) : ThumbFormat :=
  if strIncludes mimeType "png" then .png
  else if strIncludes mimeType "webp" then .webp
  else .jpeg

/-- The source's scan over the first candidate's parts: the first part that
has `inlineData` with truthy `data` yields the image (base64 data, mime
type defaulted to `image/jpeg`); parts without usable data are skipped. -/
def firstInlineImage : List GenPart → Option (String × String)
  | [] => none
  | p :: ps =>
    match p.inlineData with
    | some idat =>
      match idat.data with
      | some d =>
        if d = "" then firstInlineImage ps
        else some (d, idat.mimeType.getD "image/jpeg")
      | none => firstInlineImage ps
    | none => firstInlineImage ps

/-- Image extraction from the abstracted response
(`candidates[0]?.content?.parts` may be absent altogether). -/
def inlineImageOf (parts : Option (List GenPart)) : Option (String × String) :=
  match parts with
  | some ps => firstInlineImage ps
  | none => none

/-- The thumbnail stage's catch block: writes the failure status (the
nested try around that write is a no-op under a reliable store) and emits
the stage's error topic.  `acc` holds the writes already performed before
the throw. -/
def thumbErrorFallout (acc : List FieldWrite) (traceId msg now : String) :
    HandlerOutcome :=
  (acc ++ [FieldWrite.statusW
            { status := .thumbnailGenerationFailed, error := some msg, updatedAt := now }],
   [EmittedEvent.thumbnailImageGenerationError traceId msg "generate-thumbnail"])

/-- Embedding of the `Generate-Thumbnail-Image` handler.  `apiKey` is the
`GEMINI_API_KEY` environment variable; `genParts` the outcome of the image
generation call; `descOutcome` the outcome of the fallback description
call; `uploadOutcome` the `(storageKey, url)` outcome of
`uploadThumbnail`; `now` the invocation's clock reading. -/
def generateThumbnailHandler (input : PromptsInput) (apiKey : Option String)
    (pre : TraceState) (genParts : Except String (Option (List GenPart)))
    (descOutcome : Except String String)
    (uploadOutcome : Except String (String × String)) (now : String) :
    HandlerOutcome :=
  let tid := input.traceId
  match apiKey with
  | none =>
    thumbErrorFallout [] tid "GEMINI_API_KEY environment variable is not set" now
  | some _ =>
    match pre.videoData, pre.metadata with
    | some _vd, some _md =>
      let w0 := [FieldWrite.statusW { status := .generatingThumbnail, updatedAt := now }]
      match genParts with
      | .error e => thumbErrorFallout w0 tid e now
      | .ok parts =>
        match inlineImageOf parts with
        | none =>
          match descOutcome with
          | .error e => thumbErrorFallout w0 tid e now
          | .ok d =>
            (w0 ++
              [FieldWrite.thumbnailW
                { description := some d, storageKey := none, url := none,
                  generatedAt := now, isPlaceholder := true },
               FieldWrite.statusW
                { status := .thumbnailDescriptionGenerated, updatedAt := now }],
             [EmittedEvent.thumbnailImageGenerated
                { traceId := tid, thumbnailStorageKey := none, thumbnailUrl := none,
                  hasImage := false, description := some d }])
        | some (imgData, mime) =>
          let fmt := detectFormat mime
          match uploadOutcome with
          | .error e => thumbErrorFallout w0 tid e now
          | .ok (key, url) =>
            (w0 ++
              [FieldWrite.thumbnailW
                { storageKey := some key, url := some url, format := some fmt,
                  size := some imgData.length, generatedAt := now,
                  isPlaceholder := false },
               FieldWrite.statusW { status := .thumbnailGenerated, updatedAt := now }],
             [EmittedEvent.thumbnailImageGenerated
                { traceId := tid, thumbnailStorageKey := some key,
                  thumbnailUrl := some url, hasImage := true }])
    | _, _ =>
      thumbErrorFallout [] tid "Video data or metadata not found in state" now

/-! ### Stage 03.2: title generation (`03.2-generate-title.step.ts`)

The chat-completion call together with the JSON-fence stripping and
`JSON.parse` of its body is abstracted as an `Except` oracle producing the
parsed `titles` array (each option's `title` string, empty string for a
missing one) and `recommended` index. -/

/-- Parsed AI response of the title stage. -/
structure ParsedTitles where
  titles : List String
  recommended : Nat := 0
  deriving DecidableEq, Repr

/-- Payload fields of `prompts.generated` destructured by the title stage. -/
structure TitleInput where
  traceId : String
  title : String := ""
  description : String := ""
  tags : List String := []
  deriving DecidableEq, Repr

/-- The title stage's catch block: failure status write plus error topic. -/
def titleErrorFallout (acc : List FieldWrite) (traceId msg now : String) :
    HandlerOutcome :=
  (acc ++ [FieldWrite.statusW
            { status := .titleGenerationFailed, error := some msg, updatedAt := now }],
   [EmittedEvent.finalTitleGenerationError traceId msg "generate-title"])

/-- Embedding of the `Generate-Video-Title` handler. -/
def generateTitleHandler (input : TitleInput) (apiKey : Option String)
    (pre : TraceState) (aiOutcome : Except String ParsedTitles) (now : String) :
    HandlerOutcome :=
  let tid := input.traceId
  match apiKey with
  | none =>
    titleErrorFallout [] tid "GEMINI_API_KEY environment variable is not set" now
  | some _ =>
    match pre.videoData, pre.metadata with
    | some _vd, some md =>
      if md.autoGenerateTitle = false ∧ md.title ≠ "" then
        ([FieldWrite.generatedTitleW
            { title := md.title, isGenerated := false, generatedAt := now }],
         [EmittedEvent.finalTitleGenerated tid md.title])
      else
        let w0 := [FieldWrite.statusW { status := .generatingTitle, updatedAt := now }]
        match aiOutcome with
        | .error e => titleErrorFallout w0 tid e now
        | .ok parsed =>
          let recommendedTitle :=
            jsOr (parsed.titles.getD parsed.recommended "") (parsed.titles.getD 0 "")
          if recommendedTitle = "" then
            titleErrorFallout w0 tid "No titles generated" now
          else
            let previousTitle :=
              jsOr (match pre.generatedContent with
                    | some g => g.title
                    | none => "") input.title
            (w0 ++
              [FieldWrite.generatedTitleW
                { title := recommendedTitle, isGenerated := true, generatedAt := now,
                  previousTitle := previousTitle, allTitles := parsed.titles },
               FieldWrite.metadataW { md with title := recommendedTitle },
               FieldWrite.statusW { status := .titleGenerated, updatedAt := now }],
             [EmittedEvent.finalTitleGenerated tid recommendedTitle])
    | _, _ =>
      titleErrorFallout [] tid "Video data or metadata not found in state" now

/-! ### Stage 04: YouTube upload (`04-upload-on-youtube.step.ts`)

OAuth lookup, the authenticated-client construction, the `videos.insert`
call and the `thumbnails.set` call are abstracted as oracle outcomes; the
YouTube error objects carry an optional numeric `code` used by the catch
block's message translation. -/

/-- An error thrown inside the upload stage (plain errors have no code). -/
structure YtApiError where
  code : Option Nat := none
  message : String
  deriving DecidableEq, Repr

/-- The `uploadResponse.data` fields read by the handler. -/
structure InsertResponse where
  id : Option String := none
  channelId : Option String := none
  channelTitle : Option String := none
  publishedAt : Option String := none
  deriving DecidableEq, Repr

/-- The catch block's translation of YouTube API error codes. -/
def translateYtError (e : YtApiError) : String :=
  match e.code with
  | some 403 => "YouTube API quota exceeded or permission denied"
  | some 401 => "YouTube authentication expired. Please reconnect your account."
  | some 400 => "Invalid request: " ++ e.message
  | _ => e.message

/-- The upload stage's catch block: translated message, failure status
write, error topic. -/
def ytErrorFallout (acc : List FieldWrite) (traceId : String) (e : YtApiError)
    (now : String) : HandlerOutcome :=
  let msg := translateYtError e
  (acc ++ [FieldWrite.statusW
            { status := .uploadFailed, error := some msg, updatedAt := now }],
   [EmittedEvent.youtubeUploadError traceId msg])

/-- The video title fallback chain
`generatedTitle?.title || metadata.title || videoData.fileName`. -/
def titleFallback (gt : Option GeneratedTitle) (md : Metadata) (vd : VideoData) :
    String :=
  jsOr (match gt with
        | some g => g.title
        | none => "") (jsOr md.title vd.fileName)

/-- JS truthiness of `thumbnail?.base64`. -/
def thumbBase64Truthy : Option ThumbnailRecord → Bool
  | some r =>
    match r.base64 with
    | some s => !(s == "")
    | none => false
  | none => false

/-- JS truthiness of the `videoId` read from the insert response. -/
def videoIdTruthy : Option String → Bool
  | some s => !(s == "")
  | none => false

/-- Embedding of the `Upload-To-YouTube` handler.  `connectedUser` is the
email of `getFirstConnectedUser()` (none when no account is connected);
`authOutcome` the outcome of `getAuthenticatedClient`; `insertOutcome` the
outcome of `videos.insert`; `thumbSetOutcome` the outcome of
`thumbnails.set` (its failure is caught locally and only downgrades
`thumbnailUploaded`). -/
def uploadToYouTubeHandler (traceId : String) (pre : TraceState)
    (connectedUser : Option String) (authOutcome : Except YtApiError Unit)
    (insertOutcome : Except YtApiError InsertResponse)
    (thumbSetOutcome : Except String Unit) (now : String) : HandlerOutcome :=
  match pre.videoData with
  | none => ytErrorFallout [] traceId { message := "Video data not found in state" } now
  | some vd =>
    match pre.metadata with
    | none => ytErrorFallout [] traceId { message := "Metadata not found in state" } now
    | some md =>
      let w0 := [FieldWrite.statusW { status := .uploadingToYoutube, updatedAt := now }]
      match connectedUser with
      | none =>
        ytErrorFallout w0 traceId
          { message := "No YouTube account connected. Please connect your account first." }
          now
      | some _email =>
        match authOutcome with
        | .error e => ytErrorFallout w0 traceId e now
        | .ok _ =>
          let videoTitle := titleFallback pre.generatedTitle md vd
          match insertOutcome with
          | .error e => ytErrorFallout w0 traceId e now
          | .ok resp =>
            let videoId := resp.id
            let videoUrl := "https://www.youtube.com/watch?v=" ++ videoId.getD "undefined"
            let tryThumb := thumbBase64Truthy pre.thumbnail && videoIdTruthy videoId
            let thumbnailUploaded :=
              tryThumb &&
                (match thumbSetOutcome with
                 | .ok _ => true
                 | .error _ => false)
            (w0 ++
              [FieldWrite.uploadResultW
                { videoId := videoId, videoUrl := videoUrl,
                  channelId := resp.channelId, channelTitle := resp.channelTitle,
                  publishedAt := resp.publishedAt,
                  thumbnailUploaded := thumbnailUploaded, uploadedAt := now },
               FieldWrite.statusW
                { status := .completed, videoId := videoId, updatedAt := now }],
             [EmittedEvent.youtubeUploadCompleted traceId videoId videoUrl videoTitle
                md.privacy thumbnailUploaded])

/-! ### Error aggregator (`error-handeler.step.ts`)

The per-trace store operations the aggregator performs are abstracted as
a `StoreOutcomes` oracle: the `state.get` of `errors` may fail or return
nothing (both mapped to the empty list by the nested try), and each of the
three `state.set` calls may fail, in which case the outer catch block logs
and returns normally.  The body is written in `Except`, carrying the
writes already performed at the point of a throw; `errorHandler` is the
bus-facing function whose `Except.error` results would be unhandled
rejections. -/

/-- The error-event payload (`ErrorEvent` interface), all fields optional. -/
structure ErrorEvent where
  traceId : Option String := none
  jobId : Option String := none
  error : Option String := none
  step : Option String := none
  videoId : Option String := none
  fileName : Option String := none
  details : Option String := none
  deriving DecidableEq, Repr

/-- The static `ERROR_MESSAGES` topic table with its generic fallback. -/
def errorMessageFor (topic : String) : String :=
  match topic with
  | "file.upload.error" => "Failed to upload video file"
  | "prompts.generation.error" => "Failed to generate AI prompts"
  | "thumbnail.image.generation.error" => "Failed to generate thumbnail image"
  | "final.title.generation.error" => "Failed to generate final title"
  | "youtube.upload.error" => "Failed to upload video to YouTube"
  | "pipeline.error" => "Pipeline encountered an error"
  | _ => "An unexpected error occurred"

/-- Outcomes of the aggregator's four store operations. -/
structure StoreOutcomes where
  getErrors : Except Unit (Option (List ErrorLog))
  setErrors : Bool
  setStatus : Bool
  setSummary : Bool

/-- The aggregator's try-block body.  A failing `state.set` throws; the
error value carries the writes performed before the throw. -/
def errorHandlerBody (ev : ErrorEvent) (topic now : String) (oc : StoreOutcomes) :
    Except (List FieldWrite × String) (List FieldWrite) :=
  let tid := jsOrOpt ev.traceId (jsOrOpt ev.jobId "unknown")
  let friendly := errorMessageFor topic
  let entry : ErrorLog :=
    { traceId := tid, step := jsOrOpt ev.step (jsReplaceFirst topic ".error" ""),
      error := jsOrOpt ev.error friendly, timestamp := now, resolved := false,
      details := ev.details }
  let existing : List ErrorLog :=
    match oc.getErrors with
    | .ok (some l) => l
    | .ok none => []
    | .error _ => []
  let newErrors := existing ++ [entry]
  if oc.setErrors = false then .error ([], "state write failed")
  else
    let failedRec : StatusRecord :=
      { status := .failed, error := some (jsOrOpt ev.error friendly),
        failedStep := some (jsOrOpt ev.step topic), updatedAt := now }
    if oc.setStatus = false then
      .error ([FieldWrite.errorsW newErrors], "state write failed")
    else if oc.setSummary = false then
      .error ([FieldWrite.errorsW newErrors, FieldWrite.statusW failedRec],
              "state write failed")
    else
      .ok [FieldWrite.errorsW newErrors, FieldWrite.statusW failedRec,
           FieldWrite.errorSummaryW
             { totalErrors := newErrors.length, lastError := entry, failedAt := now }]

/-- Embedding of the `ErrorHandler` handler as the bus sees it: the body
runs under the outer try, whose catch only logs, so an internal throw still
returns normally with whatever writes already landed.  `rawTopic` is
`event?.topic`. -/
def errorHandler (ev : ErrorEvent) (rawTopic : Option String) (now : String)
    (oc : StoreOutcomes) : Except String (List FieldWrite) :=
  match errorHandlerBody ev (jsOrOpt rawTopic "unknown") now oc with
  | .ok ws => .ok ws
  | .error (ws, _e) => .ok ws

/-- A reliable store: reads return the current document, writes succeed. -/
def reliableOutcomes (st : TraceState) : StoreOutcomes :=
  { getErrors := .ok (some st.errors), setErrors := true, setStatus := true,
    setSummary := true }

/-- One aggregator invocation against a reliable store, folded into the
trace document. -/
def aggregatorStep (st : TraceState) (ev : ErrorEvent) (rawTopic : Option String)
    (now : String) : TraceState :=
  match errorHandler ev rawTopic now (reliableOutcomes st) with
  | .ok ws => applyWrites st ws
  | .error _ => st

/-- A sequence of aggregator invocations on the same trace. -/
def aggregatorRun (st : TraceState) :
    List (ErrorEvent × Option String × String) → TraceState
  | [] => st
  | (ev, t, now) :: rest => aggregatorRun (aggregatorStep st ev t now) rest

/-! ### Folder watcher (`folder-watcher.step.ts`)

The claims concern the per-file `add` callback; the cron latch and
chokidar itself are external.  A deleted-and-recreated file surfaces as a
fresh `add` event with the same path, so any event sequence is modelled as
a list of file paths. -/

/-- `path.basename`: the final path segment. -/
def baseName (p : String) : String := (jsSplitChar '/' p).getLastD p

/-- The watcher's `add` callback: reads the known-files list, and only for
an unseen basename appends it, persists it, and emits
`file.new.detected`. -/
def watcherOnAdd (known : List String) (filePath : String) :
    List String × List EmittedEvent :=
  let fileName := baseName filePath
  if known.contains fileName then (known, [])
  else (known ++ [fileName], [EmittedEvent.fileNewDetected fileName filePath])

/-- Sequential processing of a series of `add` events against the
persisted known-files record. -/
def watcherRun (known : List String) :
    List String → List String × List EmittedEvent
  | [] => (known, [])
  | p :: ps =>
    let step := watcherOnAdd known p
    let rest := watcherRun step.1 ps
    (rest.1, step.2 ++ rest.2)

/-- Number of `file.new.detected` emissions for filename `f`. -/
def detectionsFor (f : String) (es : List EmittedEvent) : Nat :=
  (es.filter fun e =>
    match e with
    | .fileNewDetected fn _ => fn == f
    | _ => false).length

/-! ### Local storage adapter (`shared/storage.ts`, `LocalStorageAdapter`)

The filesystem is a finite map from full paths to byte lists; directory
creation is implicit in the map model.  `saveBuffer` writes the bytes
under `basePath/key` and returns the key, `getStream` throws
`File not found` for an absent path, `delete` unlinks only when the path
exists (a no-op otherwise). -/

/-- The local filesystem, as an association list from path to bytes (later
writes shadow earlier entries). -/
structure LocalFS where
  files : List (String × List Nat) := []
  deriving DecidableEq, Repr

/-- `path.join(basePath, key)`. -/
def pathJoin (basePath key : String) : String := basePath ++ "/" ++ key

/-- First-match lookup in the filesystem map. -/
def fsLookup : List (String × List Nat) → String → Option (List Nat)
  | [], _ => none
  | (q, v) :: rest, p => if q = p then some v else fsLookup rest p

/-- `LocalStorageAdapter.saveBuffer`: write the bytes at the joined path,
return the storage key. -/
def localSaveBuffer (fs : LocalFS) (basePath key : String) (buf : List Nat) :
    LocalFS × String :=
  ({ files := (pathJoin basePath key, buf) :: fs.files }, key)

/-- `LocalStorageAdapter.getStream`: the file's bytes, or the not-found
error thrown when the path does not exist. -/
def localGetStream (fs : LocalFS) (basePath key : String) :
    Except String (List Nat) :=
  match fsLookup fs.files (pathJoin basePath key) with
  | some v => .ok v
  | none => .error ("File not found: " ++ key)

/-- `LocalStorageAdapter.delete`: unlink the path when present, no-op when
absent. -/
def localDelete (fs : LocalFS) (basePath key : String) : LocalFS :=
  { files := fs.files.filter fun e => !(e.1 == pathJoin basePath key) }

/-- `LocalStorageAdapter.getPublicUrl`. -/
def localGetPublicUrl (baseUrl key : String) : String := baseUrl ++ "/" ++ key

/-! ### Filename generation (`shared/storage-utils` part of `interfaces`)

`Date.now()` and `crypto.randomUUID()` are the `now` and `uuid`
parameters. -/

/-- The lower-cased final dot-segment of a filename (JS
`filename.split(".").pop()?.toLowerCase()`; `split` never yields an empty
array, so `pop` always yields a string). -/
def lastExtSegment (filename : String) : String :=
  jsToLower ((jsSplitChar '.' filename).getLastD "")

/-- `generateVideoFilename`: `video_{epochMillis}_{uuid}.{ext}` with the
original file's lower-cased extension, defaulting to `mp4` when empty. -/
def generateVideoFilename (originalFilename : String) (now : Nat) (uuid : String) :
    String :=
  "video_" ++ toString now ++ "_" ++ uuid ++ "." ++
    jsOr (lastExtSegment originalFilename) "mp4"

/-- `generateThumbnailFilename`: `thumb_{epochMillis}_{uuid}.jpg` — the
extension is the literal `jpg` independent of the image's format. -/
def generateThumbnailFilename (now : Nat) (uuid : String) : String :=
  "thumb_" ++ toString now ++ "_" ++ uuid ++ ".jpg"

/-- `isValidVideoFormat`: membership of the lower-cased extension in the
supported-format list. -/
def isValidVideoFormat (filename : String) : Bool :=
  ["mp4", "mov", "avi", "webm", "mkv"].contains (lastExtSegment filename)

/-- The extension string of a supported thumbnail format. -/
def thumbFormatExt : ThumbFormat → String
  | .jpeg => "jpeg"
  | .png => "png"
  | .webp => "webp"

/-- The content type `uploadThumbnail` selects for a format (the format's
only use in that function). -/
def thumbContentType : ThumbFormat → String
  | .jpeg => "image/jpeg"
  | .png => "image/png"
  | .webp => "image/webp"

/-- `uploadThumbnail`'s storage key and public URL for a thumbnail of the
given format: the key is `thumbnails/` plus the generated filename, and
the format influences only the content type, not the name. -/
def uploadThumbnailRef (_format : ThumbFormat) (now : Nat) (uuid baseUrl : String) :
    String × String :=
  let storageKey := "thumbnails/" ++ generateThumbnailFilename now uuid
  (storageKey, localGetPublicUrl baseUrl storageKey)

/-- The final dot-segment of a name (not lower-cased), for inspecting the
extension a generated filename actually carries. -/
def extOf (name : String) : String := (jsSplitChar '.' name).getLastD ""

/-! ### The documented status order and write counting -/

/-- Position of a status in the documented success order
`uploading → generating-thumbnail → thumbnail-generated /
thumbnail-description-generated → generating-title → title-generated →
uploading-to-youtube → completed`; failure statuses have no position. -/
def statusRank : Status → Option Nat
  | .uploading => some 0
  | .generatingThumbnail => some 1
  | .thumbnailGenerated => some 2
  | .thumbnailDescriptionGenerated => some 2
  | .generatingTitle => some 3
  | .titleGenerated => some 4
  | .uploadingToYoutube => some 5
  | .completed => some 6
  | .failed => none
  | .thumbnailGenerationFailed => none
  | .titleGenerationFailed => none
  | .uploadFailed => none

/-- Whether a status is the terminal `failed` or a stage-failure value. -/
def isFailedStatus : Status → Bool
  | .failed => true
  | .thumbnailGenerationFailed => true
  | .titleGenerationFailed => true
  | .uploadFailed => true
  | _ => false

/-- One transition allowed by the claim: a jump to a failure status, or a
strictly forward move along the documented success order.  In particular a
failure status allows no further non-failed value. -/
def forwardOrFailed (a b : Status) : Bool :=
  isFailedStatus b ||
    (match statusRank a, statusRank b with
     | some ra, some rb => decide (ra < rb)
     | _, _ => false)

/-- Whether every consecutive pair of a status-write sequence satisfies
`forwardOrFailed`. -/
def monotoneStatusTrace : List Status → Bool
  | a :: b :: rest => forwardOrFailed a b && monotoneStatusTrace (b :: rest)
  | _ => true

/-- Number of writes in a list matched by the given field selector. -/
def countWrites (p : FieldWrite → Bool) (ws : List FieldWrite) : Nat :=
  (ws.filter p).length

/-- Selector for writes to the `thumbnail` field. -/
def isThumbnailWrite : FieldWrite → Bool
  | .thumbnailW _ => true
  | _ => false

/-- Selector for writes to the `generatedTitle` field. -/
def isGeneratedTitleWrite : FieldWrite → Bool
  | .generatedTitleW _ => true
  | _ => false

/-- Selector for writes to the `uploadResult` field. -/
def isUploadResultWrite : FieldWrite → Bool
  | .uploadResultW _ => true
  | _ => false

/-- Whether an event is one of the stages' success topics. -/
def isSuccessTopic : EmittedEvent → Bool
  | .thumbnailImageGenerated _ => true
  | .finalTitleGenerated _ _ => true
  | .youtubeUploadCompleted _ _ _ _ _ _ => true
  | _ => false

/-- Whether an event is one of the stages' error topics. -/
def isErrorTopic : EmittedEvent → Bool
  | .thumbnailImageGenerationError _ _ _ => true
  | .finalTitleGenerationError _ _ _ => true
  | .youtubeUploadError _ _ => true
  | _ => false

/-! ### Concrete scenario used by the cross-invocation counterexamples

A trace whose upstream fields are present, on which the error aggregator
records a failure (from the title stage's error topic) and the thumbnail
stage — independently subscribed to the same `prompts.generated` event,
with no ordering guarantee between the fan-out consumers — runs afterwards
and succeeds with a placeholder thumbnail. -/

/-- Pre-state with `videoData` and `metadata` present. -/
def scenarioPre : TraceState :=
  { videoData := some { fileName := "clip.mp4" },
    metadata := some { title := "T" } }

/-- The error event delivered to the aggregator in the scenario. -/
def scenarioErrEvent : ErrorEvent :=
  { traceId := some "t1", error := some "Failed to parse title response from AI",
    step := some "generate-title" }

/-- The aggregator's writes in the scenario (reliable store). -/
def scenarioAggWrites : List FieldWrite :=
  (errorHandler scenarioErrEvent (some "final.title.generation.error")
      "2026-02-01T00:00:00Z" (reliableOutcomes scenarioPre)).toOption.getD []

/-- The trace document after the aggregator's invocation. -/
def scenarioFailedState : TraceState :=
  aggregatorStep scenarioPre scenarioErrEvent (some "final.title.generation.error")
    "2026-02-01T00:00:00Z"

/-- The thumbnail stage's subsequent invocation on the failed trace: the
generative call returns a response without inline image data, the fallback
description call succeeds. -/
def scenarioThumbRun : HandlerOutcome :=
  generateThumbnailHandler { traceId := "t1" } (some "api-key") scenarioFailedState
    (.ok (some [])) (.ok "a bright blue thumbnail") (.ok ("k", "u"))
    "2026-02-01T00:00:05Z"

/-- The trace-wide sequence of `status` values written in the scenario. -/
def scenarioStatusTrace : List Status :=
  statusWrites scenarioAggWrites ++ statusWrites scenarioThumbRun.1

/-- A thumbnail-stage invocation on a healthy trace whose image generation
succeeds, used to count its per-invocation writes. -/
def successThumbRun : HandlerOutcome :=
  generateThumbnailHandler { traceId := "t2" } (some "api-key") scenarioPre
    (.ok (some [{ inlineData := some { data := some "aW1n", mimeType := some "image/png" } }]))
    (.ok "unused") (.ok ("thumbnails/thumb_1_u.jpg", "http://localhost:3000/files/thumbnails/thumb_1_u.jpg"))
    "2026-02-01T00:00:05Z"

/-- A thumbnail-stage invocation that fails before any stage-field write
(missing API key). -/
def failingThumbRun : HandlerOutcome :=
  generateThumbnailHandler { traceId := "t3" } none scenarioPre
    (.ok none) (.ok "unused") (.ok ("k", "u")) "2026-02-01T00:00:05Z"

/-! ## Helper lemmas -/

/-- Removing every entry at a path leaves nothing to look up there. -/
theorem fsLookup_filterOut (l : List (String × List Nat)) (p : String) :
    fsLookup (l.filter fun e => !(e.1 == p)) p = none := by
  induction l with
  | nil => rfl
  | cons hd tl ih =>
    by_cases h : hd.1 = p
    · simpa [List.filter_cons, h] using ih
    · simpa [List.filter_cons, h, fsLookup] using ih

/-- Cancelling a common left factor of a string concatenation. -/
theorem string_append_left_cancel (a b c : String) (h : a ++ b = a ++ c) :
    b = c := by
  have hd : a.data ++ b.data = a.data ++ c.data := by
    have h' := congrArg String.data h
    simpa [String.data_append] using h'
  have hbc : b.data = c.data := List.append_cancel_left hd
  cases b
  cases c
  exact congrArg String.mk hbc

/-- Cancelling a common right factor of a string concatenation. -/
theorem string_append_right_cancel (a b c : String) (h : a ++ c = b ++ c) :
    a = b := by
  have hd : a.data ++ c.data = b.data ++ c.data := by
    have h' := congrArg String.data h
    simpa [String.data_append] using h'
  have hab : a.data = b.data := List.append_cancel_right hd
  cases a
  cases b
  exact congrArg String.mk hab

/-- A valid video filename has a nonempty lower-cased extension. -/
theorem validFormat_ext_ne_empty (orig : String)
    (h : isValidVideoFormat orig = true) : lastExtSegment orig ≠ "" := by
  have hm : lastExtSegment orig ∈ ["mp4", "mov", "avi", "webm", "mkv"] := by
    simpa [isValidVideoFormat] using h
  simp only [List.mem_cons, List.not_mem_nil, or_false] at hm
  rcases hm with h1 | h1 | h1 | h1 | h1 <;> rw [h1] <;> decide

/-- Emission counts split over appended event lists. -/
theorem detectionsFor_append (f : String) (a b : List EmittedEvent) :
    detectionsFor f (a ++ b) = detectionsFor f a + detectionsFor f b := by
  simp [detectionsFor, List.filter_append]

/-! ## Claims -/

/-- C7: saving a buffer `B` under key `K` with the local storage adapter
and then reading `K` back yields exactly the bytes of `B` (and the save
returns the key); deleting `K` and then reading `K` fails with the
adapter's not-found error. -/
theorem storage_roundtrip_and_delete (fs : LocalFS) (basePath key : String)
    (buf : List Nat) :
    localGetStream (localSaveBuffer fs basePath key buf).1 basePath key = Except.ok buf
    ∧ (localSaveBuffer fs basePath key buf).2 = key
    ∧ localGetStream (localDelete fs basePath key) basePath key =
        Except.error ("File not found: " ++ key) := by
  refine ⟨?_, rfl, ?_⟩
  · simp [localSaveBuffer, localGetStream, fsLookup]
  · simp [localDelete, localGetStream, fsLookup_filterOut]

/-- C9 counterexample: the storage key generated for a webp-format
thumbnail carries the literal extension `jpg`, not the artifact's actual
format extension `webp`. -/
theorem thumbnail_ext_counterexample :
    extOf (uploadThumbnailRef .webp 1717171717171 "3f2b-77aa"
            "http://localhost:3000/files").1 = "jpg"
    ∧ thumbFormatExt .webp = "webp"
    ∧ ("jpg" : String) ≠ "webp" := by
  refine ⟨rfl, rfl, by decide⟩

/-- C9 amended: generated artifact names have the documented
`prefix_epochMillis_uuid.ext` shape, and at a fixed timestamp distinct
uuids give distinct names; but while a video filename's extension is the
original file's own lower-cased extension, a thumbnail filename's
extension is always the literal `jpg`, independent of the image's actual
format (the format selects only the upload content type). -/
theorem artifact_filename_shape (orig : String) (now : Nat)
    (u u1 u2 baseUrl : String) (f : ThumbFormat)
    (hv : isValidVideoFormat orig = true) :
    generateVideoFilename orig now u =
      "video_" ++ toString now ++ "_" ++ u ++ "." ++ lastExtSegment orig
    ∧ (uploadThumbnailRef f now u baseUrl).1 =
        "thumbnails/" ++ ("thumb_" ++ toString now ++ "_" ++ u ++ ".jpg")
    ∧ uploadThumbnailRef f now u baseUrl = uploadThumbnailRef .jpeg now u baseUrl
    ∧ (generateThumbnailFilename now u1 = generateThumbnailFilename now u2 → u1 = u2)
    ∧ (generateVideoFilename orig now u1 = generateVideoFilename orig now u2 →
        u1 = u2) := by
  refine ⟨?_, rfl, rfl, ?_, ?_⟩
  · have hne := validFormat_ext_ne_empty orig hv
    simp [generateVideoFilename, jsOr, hne]
  · intro h
    unfold generateThumbnailFilename at h
    have h1 := string_append_right_cancel _ _ _ h
    exact string_append_left_cancel _ _ _ h1
  · intro h
    unfold generateVideoFilename at h
    have h1 := string_append_right_cancel _ _ _ h
    have h2 := string_append_right_cancel _ _ _ h1
    exact string_append_left_cancel _ _ _ h2

/-- Witness for `artifact_filename_shape` at a concrete valid filename. -/
theorem artifact_filename_shape_witness :
    generateVideoFilename "clip.MP4" 1717171717171 "aa-bb" =
      "video_" ++ toString 1717171717171 ++ "_" ++ "aa-bb" ++ "." ++
        lastExtSegment "clip.MP4" :=
  (artifact_filename_shape "clip.MP4" 1717171717171 "aa-bb" "u1" "u2"
    "http://localhost:3000/files" .webp rfl).1

/-- C4: across any sequence of file-creation events processed against a
known-files record — including a deleted file recreated under the same
name, which simply surfaces as another creation event — the watcher emits
`file.new.detected` for filename `f` at most once, and not at all when `f`
is already in the record. -/
theorem watcher_dedup (known : List String) (paths : List String) (f : String) :
    detectionsFor f (watcherRun known paths).2 ≤
      if f ∈ known then 0 else 1 := by
  induction paths generalizing known with
  | nil =>
    simp [watcherRun, detectionsFor]
  | cons p ps ih =>
    by_cases hk : baseName p ∈ known
    · have hrw : watcherOnAdd known p = (known, []) := by
        simp [watcherOnAdd, List.contains, hk]
      simpa [watcherRun, hrw] using ih known
    · have hrw : watcherOnAdd known p =
          (known ++ [baseName p], [EmittedEvent.fileNewDetected (baseName p) p]) := by
        simp [watcherOnAdd, List.contains, hk]
      have hsplit : detectionsFor f (watcherRun known (p :: ps)).2 =
          detectionsFor f [EmittedEvent.fileNewDetected (baseName p) p] +
            detectionsFor f (watcherRun (known ++ [baseName p]) ps).2 := by
        simp only [watcherRun, hrw]
        rw [← List.singleton_append, detectionsFor_append]
      by_cases hf : baseName p = f
      · subst hf
        have htail := ih (known ++ [baseName p])
        have hmem : baseName p ∈ known ++ [baseName p] := by simp
        rw [if_pos hmem] at htail
        have hone :
            detectionsFor (baseName p) [EmittedEvent.fileNewDetected (baseName p) p] = 1 := by
          simp [detectionsFor]
        rw [hsplit, hone, if_neg hk]
        omega
      · have htail := ih (known ++ [baseName p])
        have hmem : (f ∈ known ++ [baseName p]) ↔ f ∈ known := by
          simp [Ne.symm hf]
        have htail' : detectionsFor f (watcherRun (known ++ [baseName p]) ps).2 ≤
            if f ∈ known then 0 else 1 := by
          by_cases hfk : f ∈ known
          · simpa [hfk, hmem.mpr hfk] using htail
          · have hno : ¬ f ∈ known ++ [baseName p] := fun hc => hfk (hmem.mp hc)
            simpa [hfk, hno] using htail
        have hzero :
            detectionsFor f [EmittedEvent.fileNewDetected (baseName p) p] = 0 := by
          simp [detectionsFor, hf]
        rw [hsplit, hzero]
        simpa using htail'

/-- C8: the error aggregator returns normally for every input and every
combination of store-operation outcomes — a failing read is treated as an
empty list, a failing write is swallowed by the outer catch — so no error
escapes its boundary. -/
theorem aggregator_never_throws (ev : ErrorEvent) (rawTopic : Option String)
    (now : String) (oc : StoreOutcomes) :
    ∃ ws, errorHandler ev rawTopic now oc = Except.ok ws := by
  unfold errorHandler
  cases h : errorHandlerBody ev (jsOrOpt rawTopic "unknown") now oc with
  | ok ws => exact ⟨ws, rfl⟩
  | error e => exact ⟨e.1, rfl⟩

/-- C5: when the generative call yields no usable inline image data (and
the upstream fields are in state), the thumbnail stage stores a
`thumbnail` record with `isPlaceholder` true and no storage key, and emits
the success topic `thumbnail.image.generated` — not the error topic — with
`hasImage` false and the generated description. -/
theorem thumbnail_placeholder_success (input : PromptsInput) (key : String)
    (pre : TraceState) (vd : VideoData) (md : Metadata)
    (parts : Option (List GenPart)) (d now : String)
    (upl : Except String (String × String))
    (hvd : pre.videoData = some vd) (hmd : pre.metadata = some md)
    (himg : inlineImageOf parts = none) :
    generateThumbnailHandler input (some key) pre (.ok parts) (.ok d) upl now =
      ([FieldWrite.statusW { status := .generatingThumbnail, updatedAt := now },
        FieldWrite.thumbnailW
          { description := some d, storageKey := none, url := none,
            generatedAt := now, isPlaceholder := true },
        FieldWrite.statusW { status := .thumbnailDescriptionGenerated, updatedAt := now }],
       [EmittedEvent.thumbnailImageGenerated
          { traceId := input.traceId, thumbnailStorageKey := none,
            thumbnailUrl := none, hasImage := false, description := some d }]) := by
  simp [generateThumbnailHandler, hvd, hmd, himg]

/-- Witness for `thumbnail_placeholder_success` on a concrete trace with
an empty candidate part list. -/
theorem thumbnail_placeholder_success_witness :
    generateThumbnailHandler { traceId := "t1" } (some "api-key") scenarioPre
        (.ok (some [])) (.ok "a bright blue thumbnail") (.ok ("k", "u")) "now" =
      ([FieldWrite.statusW { status := .generatingThumbnail, updatedAt := "now" },
        FieldWrite.thumbnailW
          { description := some "a bright blue thumbnail", storageKey := none,
            url := none, generatedAt := "now", isPlaceholder := true },
        FieldWrite.statusW
          { status := .thumbnailDescriptionGenerated, updatedAt := "now" }],
       [EmittedEvent.thumbnailImageGenerated
          { traceId := "t1", thumbnailStorageKey := none, thumbnailUrl := none,
            hasImage := false, description := some "a bright blue thumbnail" }]) :=
  thumbnail_placeholder_success { traceId := "t1" } "api-key" scenarioPre
    { fileName := "clip.mp4" } { title := "T" } (some [])
    "a bright blue thumbnail" "now" (.ok ("k", "u")) rfl rfl rfl

/-- C6: for a trace whose metadata disables auto-generated titles and
carries a nonempty user title, the title stage writes only the
`generatedTitle` field (marked not generated) and emits the success topic
with the user title unchanged — independently of the AI oracle's outcome,
i.e. without consulting the AI call at all (and without touching
`status`). -/
theorem title_bypass (input : TitleInput) (key : String) (pre : TraceState)
    (vd : VideoData) (md : Metadata) (ai : Except String ParsedTitles)
    (now : String) (hvd : pre.videoData = some vd) (hmd : pre.metadata = some md)
    (hauto : md.autoGenerateTitle = false) (htitle : md.title ≠ "") :
    generateTitleHandler input (some key) pre ai now =
      ([FieldWrite.generatedTitleW
          { title := md.title, isGenerated := false, generatedAt := now }],
       [EmittedEvent.finalTitleGenerated input.traceId md.title]) := by
  simp [generateTitleHandler, hvd, hmd, hauto, htitle]

/-- The metadata of the C6 witness trace: auto-generation off, user title
present. -/
def bypassMetadata : Metadata := { title := "My Video", autoGenerateTitle := false }

/-- The C6 witness trace. -/
def bypassPre : TraceState :=
  { videoData := some { fileName := "clip.mp4" }, metadata := some bypassMetadata }

/-- Witness for `title_bypass`: even with the AI oracle failing, the
user-provided title "My Video" passes through unchanged. -/
theorem title_bypass_witness :
    generateTitleHandler { traceId := "t1" } (some "api-key") bypassPre
        (.error "ai unavailable") "now" =
      ([FieldWrite.generatedTitleW
          { title := "My Video", isGenerated := false, generatedAt := "now" }],
       [EmittedEvent.finalTitleGenerated "t1" "My Video"]) :=
  title_bypass { traceId := "t1" } "api-key" bypassPre { fileName := "clip.mp4" }
    bypassMetadata (.error "ai unavailable") "now" rfl rfl rfl (by decide)

/-- C10: when `videoData` and `metadata` are in state and the external
calls succeed, the upload stage completes even with `generatedTitle` and
`thumbnail` absent or partial: the video title falls back along
`generatedTitle?.title`, then `metadata.title`, then `videoData.fileName`
(`titleFallback`), and a thumbnail without stored image data is silently
skipped (`thumbnailUploaded` false), with the success topic emitted. -/
theorem youtube_upload_optional_fields (traceId : String) (pre : TraceState)
    (vd : VideoData) (md : Metadata) (email : String) (resp : InsertResponse)
    (thumbSet : Except String Unit) (now : String)
    (hvd : pre.videoData = some vd) (hmd : pre.metadata = some md)
    (hthumb : thumbBase64Truthy pre.thumbnail = false) :
    uploadToYouTubeHandler traceId pre (some email) (.ok ()) (.ok resp)
        thumbSet now =
      ([FieldWrite.statusW { status := .uploadingToYoutube, updatedAt := now },
        FieldWrite.uploadResultW
          { videoId := resp.id,
            videoUrl := "https://www.youtube.com/watch?v=" ++ resp.id.getD "undefined",
            channelId := resp.channelId, channelTitle := resp.channelTitle,
            publishedAt := resp.publishedAt, thumbnailUploaded := false,
            uploadedAt := now },
        FieldWrite.statusW { status := .completed, videoId := resp.id, updatedAt := now }],
       [EmittedEvent.youtubeUploadCompleted traceId resp.id
          ("https://www.youtube.com/watch?v=" ++ resp.id.getD "undefined")
          (titleFallback pre.generatedTitle md vd) md.privacy false]) := by
  simp [uploadToYouTubeHandler, hvd, hmd, hthumb]

/-- Witness for `youtube_upload_optional_fields` on a trace with neither
`generatedTitle` nor `thumbnail` set: no error topic, and the title falls
back to the metadata title. -/
theorem youtube_upload_optional_fields_witness :
    uploadToYouTubeHandler "t1" scenarioPre (some "user@example.com") (.ok ())
        (.ok { id := some "vid123" }) (.ok ()) "now" =
      ([FieldWrite.statusW { status := .uploadingToYoutube, updatedAt := "now" },
        FieldWrite.uploadResultW
          { videoId := some "vid123",
            videoUrl := "https://www.youtube.com/watch?v=" ++ "vid123",
            channelId := none, channelTitle := none, publishedAt := none,
            thumbnailUploaded := false, uploadedAt := "now" },
        FieldWrite.statusW
          { status := .completed, videoId := some "vid123", updatedAt := "now" }],
       [EmittedEvent.youtubeUploadCompleted "t1" (some "vid123")
          ("https://www.youtube.com/watch?v=" ++ "vid123")
          (titleFallback scenarioPre.generatedTitle { title := "T" }
            { fileName := "clip.mp4" }) "" false]) :=
  youtube_upload_optional_fields "t1" scenarioPre { fileName := "clip.mp4" }
    { title := "T" } "user@example.com" { id := some "vid123" } (.ok ()) "now"
    rfl rfl rfl

/-- C3 counterexample: a successful thumbnail-stage invocation writes the
`status` field twice (progress update plus terminal update), and a failing
invocation writes its stage-named `thumbnail` field zero times — so
neither "exactly one `status` update" nor "exactly one stage-field
update" holds of every invocation. -/
theorem stage_write_counts_counterexample :
    ((statusWrites successThumbRun.1).length = 2 ∧ (2 : Nat) ≠ 1)
    ∧ (countWrites isThumbnailWrite failingThumbRun.1 = 0 ∧ (0 : Nat) ≠ 1) :=
  ⟨⟨rfl, by decide⟩, ⟨rfl, by decide⟩⟩

/-- The per-invocation effect contract that does hold: exactly one
terminal event, which is the stage's success or error topic; at most two
`status` writes; and exactly one write to the stage-named result field
when the success topic is emitted, none when the error topic is. -/
def stageEffectContract (isStageWrite : FieldWrite → Bool) (r : HandlerOutcome) :
    Prop :=
  r.2.length = 1
  ∧ (statusWrites r.1).length ≤ 2
  ∧ countWrites isStageWrite r.1 = (if r.2.any isSuccessTopic then 1 else 0)
  ∧ r.2.all (fun e => isSuccessTopic e || isErrorTopic e) = true

/-- C3 amended: every invocation of each stage handler emits exactly one
terminal event (the stage's success topic or its error topic); writes
`status` at most twice — twice on paths that pass the progress update,
once on early failures, zero on the title stage's user-title bypass; and
writes its stage-named result field exactly once when emitting success and
not at all when emitting the error topic (the title stage's AI path
additionally overwrites `metadata`). -/
theorem stage_effects_amended :
    (∀ input apiKey pre gen desc upl now,
      stageEffectContract isThumbnailWrite
        (generateThumbnailHandler input apiKey pre gen desc upl now))
    ∧ (∀ input apiKey pre ai now,
        stageEffectContract isGeneratedTitleWrite
          (generateTitleHandler input apiKey pre ai now))
    ∧ (∀ tid pre cu auth ins thumbSet now,
        stageEffectContract isUploadResultWrite
          (uploadToYouTubeHandler tid pre cu auth ins thumbSet now)) := by
  refine ⟨?_, ?_, ?_⟩
  · intro input apiKey pre gen desc upl now
    cases apiKey with
    | none =>
      simp [generateThumbnailHandler, stageEffectContract, thumbErrorFallout,
        statusWrites, countWrites, isSuccessTopic, isErrorTopic, isThumbnailWrite]
    | some k =>
      cases hv : pre.videoData with
      | none =>
        cases hm : pre.metadata <;>
          simp [generateThumbnailHandler, hv, hm, stageEffectContract,
            thumbErrorFallout, statusWrites, countWrites, isSuccessTopic,
            isErrorTopic, isThumbnailWrite]
      | some vd =>
        cases hm : pre.metadata with
        | none =>
          simp [generateThumbnailHandler, hv, hm, stageEffectContract,
            thumbErrorFallout, statusWrites, countWrites, isSuccessTopic,
            isErrorTopic, isThumbnailWrite]
        | some md =>
          cases gen with
          | error e =>
            simp [generateThumbnailHandler, hv, hm, stageEffectContract,
              thumbErrorFallout, statusWrites, countWrites, isSuccessTopic,
              isErrorTopic, isThumbnailWrite]
          | ok parts =>
            cases himg : inlineImageOf parts with
            | none =>
              cases desc <;>
                simp [generateThumbnailHandler, hv, hm, himg, stageEffectContract,
                  thumbErrorFallout, statusWrites, countWrites, isSuccessTopic,
                  isErrorTopic, isThumbnailWrite]
            | some img =>
              obtain ⟨imgData, mime⟩ := img
              cases upl with
              | error e =>
                simp [generateThumbnailHandler, hv, hm, himg, stageEffectContract,
                  thumbErrorFallout, statusWrites, countWrites, isSuccessTopic,
                  isErrorTopic, isThumbnailWrite]
              | ok kv =>
                obtain ⟨key, url⟩ := kv
                simp [generateThumbnailHandler, hv, hm, himg, stageEffectContract,
                  thumbErrorFallout, statusWrites, countWrites, isSuccessTopic,
                  isErrorTopic, isThumbnailWrite]
  · intro input apiKey pre ai now
    cases apiKey with
    | none =>
      simp [generateTitleHandler, stageEffectContract, titleErrorFallout,
        statusWrites, countWrites, isSuccessTopic, isErrorTopic,
        isGeneratedTitleWrite]
    | some k =>
      cases hv : pre.videoData with
      | none =>
        cases hm : pre.metadata <;>
          simp [generateTitleHandler, hv, hm, stageEffectContract,
            titleErrorFallout, statusWrites, countWrites, isSuccessTopic,
            isErrorTopic, isGeneratedTitleWrite]
      | some vd =>
        cases hm : pre.metadata with
        | none =>
          simp [generateTitleHandler, hv, hm, stageEffectContract,
            titleErrorFallout, statusWrites, countWrites, isSuccessTopic,
            isErrorTopic, isGeneratedTitleWrite]
        | some md =>
          by_cases hbp : md.autoGenerateTitle = false ∧ md.title ≠ ""
          · simp [generateTitleHandler, hv, hm, hbp, stageEffectContract,
              statusWrites, countWrites, isSuccessTopic, isErrorTopic,
              isGeneratedTitleWrite]
          · cases ai with
            | error e =>
              simp [generateTitleHandler, hv, hm, hbp, stageEffectContract,
                titleErrorFallout, statusWrites, countWrites, isSuccessTopic,
                isErrorTopic, isGeneratedTitleWrite]
            | ok parsed =>
              simp only [generateTitleHandler, hv, hm]
              rw [if_neg hbp]
              split <;>
                simp [stageEffectContract, titleErrorFallout, statusWrites,
                  countWrites, isSuccessTopic, isErrorTopic, isGeneratedTitleWrite]
  · intro tid pre cu auth ins thumbSet now
    cases hv : pre.videoData with
    | none =>
      simp [uploadToYouTubeHandler, hv, stageEffectContract, ytErrorFallout,
        statusWrites, countWrites, isSuccessTopic, isErrorTopic,
        isUploadResultWrite]
    | some vd =>
      cases hm : pre.metadata with
      | none =>
        simp [uploadToYouTubeHandler, hv, hm, stageEffectContract, ytErrorFallout,
          statusWrites, countWrites, isSuccessTopic, isErrorTopic,
          isUploadResultWrite]
      | some md =>
        cases cu with
        | none =>
          simp [uploadToYouTubeHandler, hv, hm, stageEffectContract, ytErrorFallout,
            statusWrites, countWrites, isSuccessTopic, isErrorTopic,
            isUploadResultWrite]
        | some email =>
          cases auth with
          | error e =>
            simp [uploadToYouTubeHandler, hv, hm, stageEffectContract,
              ytErrorFallout, statusWrites, countWrites, isSuccessTopic,
              isErrorTopic, isUploadResultWrite]
          | ok u =>
            cases ins <;>
              simp [uploadToYouTubeHandler, hv, hm, stageEffectContract,
                ytErrorFallout, statusWrites, countWrites, isSuccessTopic,
                isErrorTopic, isUploadResultWrite]

/-- C1 counterexample: in the scenario where the error aggregator records
a title-stage failure and the thumbnail stage — a fan-out consumer of the
same `prompts.generated` event, with no ordering guarantee and no check of
the current `status` — runs afterwards, the trace's status-write
sequence is `failed`, then `generating-thumbnail`, then
`thumbnail-description-generated`: a non-failed value is written after
`failed`, violating both the forward-only and the failed-is-final clause
of the claim. -/
theorem status_monotonicity_counterexample :
    scenarioStatusTrace =
      [Status.failed, Status.generatingThumbnail,
       Status.thumbnailDescriptionGenerated]
    ∧ monotoneStatusTrace scenarioStatusTrace = false
    ∧ isFailedStatus Status.failed = true
    ∧ isFailedStatus Status.generatingThumbnail = false :=
  ⟨rfl, rfl, rfl, rfl⟩

/-- C1 amended: within any single handler invocation the status writes do
respect the documented order — each consecutive pair either moves strictly
forward along the success order or jumps to a failure status, and nothing
follows a failure status; the original cross-invocation claim fails
because fan-out stages never read the current status before writing
(see the counterexample). -/
theorem status_monotone_within_invocation :
    (∀ input apiKey pre gen desc upl now,
      monotoneStatusTrace
        (statusWrites
          (generateThumbnailHandler input apiKey pre gen desc upl now).1) = true)
    ∧ (∀ input apiKey pre ai now,
        monotoneStatusTrace
          (statusWrites (generateTitleHandler input apiKey pre ai now).1) = true)
    ∧ (∀ tid pre cu auth ins thumbSet now,
        monotoneStatusTrace
          (statusWrites
            (uploadToYouTubeHandler tid pre cu auth ins thumbSet now).1) = true)
    ∧ (∀ ev rawTopic now oc ws, errorHandler ev rawTopic now oc = Except.ok ws →
        monotoneStatusTrace (statusWrites ws) = true) := by
  refine ⟨?_, ?_, ?_, ?_⟩
  · intro input apiKey pre gen desc upl now
    cases apiKey with
    | none =>
      simp [generateThumbnailHandler, thumbErrorFallout, statusWrites,
        monotoneStatusTrace]
    | some k =>
      cases hv : pre.videoData with
      | none =>
        cases hm : pre.metadata <;>
          simp [generateThumbnailHandler, hv, hm, thumbErrorFallout,
            statusWrites, monotoneStatusTrace]
      | some vd =>
        cases hm : pre.metadata with
        | none =>
          simp [generateThumbnailHandler, hv, hm, thumbErrorFallout,
            statusWrites, monotoneStatusTrace]
        | some md =>
          cases gen with
          | error e =>
            simp [generateThumbnailHandler, hv, hm, thumbErrorFallout,
              statusWrites, monotoneStatusTrace, forwardOrFailed, isFailedStatus]
          | ok parts =>
            cases himg : inlineImageOf parts with
            | none =>
              cases desc <;>
                simp [generateThumbnailHandler, hv, hm, himg, thumbErrorFallout,
                  statusWrites, monotoneStatusTrace, forwardOrFailed,
                  isFailedStatus, statusRank]
            | some img =>
              obtain ⟨imgData, mime⟩ := img
              cases upl with
              | error e =>
                simp [generateThumbnailHandler, hv, hm, himg, thumbErrorFallout,
                  statusWrites, monotoneStatusTrace, forwardOrFailed,
                  isFailedStatus, statusRank]
              | ok kv =>
                obtain ⟨key, url⟩ := kv
                simp [generateThumbnailHandler, hv, hm, himg, statusWrites,
                  monotoneStatusTrace, forwardOrFailed, isFailedStatus, statusRank]
  · intro input apiKey pre ai now
    cases apiKey with
    | none =>
      simp [generateTitleHandler, titleErrorFallout, statusWrites,
        monotoneStatusTrace]
    | some k =>
      cases hv : pre.videoData with
      | none =>
        cases hm : pre.metadata <;>
          simp [generateTitleHandler, hv, hm, titleErrorFallout, statusWrites,
            monotoneStatusTrace]
      | some vd =>
        cases hm : pre.metadata with
        | none =>
          simp [generateTitleHandler, hv, hm, titleErrorFallout, statusWrites,
            monotoneStatusTrace]
        | some md =>
          by_cases hbp : md.autoGenerateTitle = false ∧ md.title ≠ ""
          · simp [generateTitleHandler, hv, hm, hbp, statusWrites,
              monotoneStatusTrace]
          · cases ai with
            | error e =>
              simp [generateTitleHandler, hv, hm, hbp, titleErrorFallout,
                statusWrites, monotoneStatusTrace, forwardOrFailed, isFailedStatus]
            | ok parsed =>
              simp only [generateTitleHandler, hv, hm]
              rw [if_neg hbp]
              split <;>
                simp [titleErrorFallout, statusWrites, monotoneStatusTrace,
                  forwardOrFailed, isFailedStatus, statusRank]
  · intro tid pre cu auth ins thumbSet now
    cases hv : pre.videoData with
    | none =>
      simp [uploadToYouTubeHandler, hv, ytErrorFallout, statusWrites,
        monotoneStatusTrace]
    | some vd =>
      cases hm : pre.metadata with
      | none =>
        simp [uploadToYouTubeHandler, hv, hm, ytErrorFallout, statusWrites,
          monotoneStatusTrace]
      | some md =>
        cases cu with
        | none =>
          simp [uploadToYouTubeHandler, hv, hm, ytErrorFallout, statusWrites,
            monotoneStatusTrace, forwardOrFailed, isFailedStatus]
        | some email =>
          cases auth with
          | error e =>
            simp [uploadToYouTubeHandler, hv, hm, ytErrorFallout, statusWrites,
              monotoneStatusTrace, forwardOrFailed, isFailedStatus]
          | ok u =>
            cases ins <;>
              simp [uploadToYouTubeHandler, hv, hm, ytErrorFallout, statusWrites,
                monotoneStatusTrace, forwardOrFailed, isFailedStatus, statusRank]
  · intro ev rawTopic now oc ws h
    obtain ⟨g, se, ss, su⟩ := oc
    unfold errorHandler errorHandlerBody at h
    cases se <;> cases ss <;> cases su <;> simp at h <;> subst h <;>
      simp [statusWrites, monotoneStatusTrace]

/-- Witness for the error-aggregator clause of
`status_monotone_within_invocation`, at the concrete scenario invocation. -/
theorem status_monotone_within_invocation_witness :
    monotoneStatusTrace (statusWrites scenarioAggWrites) = true :=
  status_monotone_within_invocation.2.2.2 scenarioErrEvent
    (some "final.title.generation.error") "2026-02-01T00:00:00Z"
    (reliableOutcomes scenarioPre) scenarioAggWrites rfl

/-- The `ErrorLog` entry one aggregator invocation appends. -/
def aggEntry (ev : ErrorEvent) (topic now : String) : ErrorLog :=
  { traceId := jsOrOpt ev.traceId (jsOrOpt ev.jobId "unknown"),
    step := jsOrOpt ev.step (jsReplaceFirst topic ".error" ""),
    error := jsOrOpt ev.error (errorMessageFor topic),
    timestamp := now, resolved := false, details := ev.details }

/-- The summary invariant the aggregator re-establishes on every
invocation: `errorSummary` is present, its `totalErrors` equals the
current length of the `errors` list, and its `lastError` is the list's
final entry. -/
def aggSummaryOk (s : TraceState) : Prop :=
  ∃ es, s.errorSummary = some es
    ∧ es.totalErrors = s.errors.length
    ∧ s.errors.getLast? = some es.lastError

/-- One reliable-store aggregator invocation appends exactly its entry to
`errors` and rewrites `errorSummary` accordingly. -/
theorem aggregatorStep_characterization (st : TraceState) (ev : ErrorEvent)
    (t : Option String) (now : String) :
    (aggregatorStep st ev t now).errors =
        st.errors ++ [aggEntry ev (jsOrOpt t "unknown") now]
    ∧ (aggregatorStep st ev t now).errorSummary =
        some { totalErrors := st.errors.length + 1,
               lastError := aggEntry ev (jsOrOpt t "unknown") now,
               failedAt := now } := by
  constructor <;>
    simp [aggregatorStep, errorHandler, errorHandlerBody, reliableOutcomes,
      applyWrites, applyWrite, aggEntry]

/-- Every reliable-store aggregator invocation re-establishes the summary
invariant. -/
theorem aggSummaryOk_step (st : TraceState) (ev : ErrorEvent)
    (t : Option String) (now : String) :
    aggSummaryOk (aggregatorStep st ev t now) := by
  obtain ⟨he, hs⟩ := aggregatorStep_characterization st ev t now
  refine ⟨_, hs, ?_, ?_⟩
  · rw [he]
    simp
  · rw [he]
    simp [List.getLast?_concat]

/-- A run of `n` aggregator invocations grows `errors` by exactly `n`. -/
theorem aggregatorRun_errors_length (st : TraceState)
    (evs : List (ErrorEvent × Option String × String)) :
    (aggregatorRun st evs).errors.length = st.errors.length + evs.length := by
  induction evs generalizing st with
  | nil => simp [aggregatorRun]
  | cons hd tl ih =>
    obtain ⟨ev, t, n⟩ := hd
    have hstep := (aggregatorStep_characterization st ev t n).1
    calc (aggregatorRun st ((ev, t, n) :: tl)).errors.length
        = (aggregatorRun (aggregatorStep st ev t n) tl).errors.length := by
          simp [aggregatorRun]
      _ = (aggregatorStep st ev t n).errors.length + tl.length := ih _
      _ = st.errors.length + 1 + tl.length := by rw [hstep]; simp
      _ = st.errors.length + ((ev, t, n) :: tl).length := by simp; omega

/-- A nonempty aggregator run ends with some final invocation's step. -/
theorem aggregatorRun_cons_last (st : TraceState)
    (hd : ErrorEvent × Option String × String)
    (tl : List (ErrorEvent × Option String × String)) :
    ∃ st0 ev t n, aggregatorRun st (hd :: tl) = aggregatorStep st0 ev t n := by
  induction tl generalizing st hd with
  | nil =>
    obtain ⟨ev, t, n⟩ := hd
    exact ⟨st, ev, t, n, by simp [aggregatorRun]⟩
  | cons hd2 tl2 ih =>
    obtain ⟨ev, t, n⟩ := hd
    obtain ⟨ev2, t2, n2⟩ := hd2
    obtain ⟨st0, ev0, t0, n0, heq⟩ := ih (aggregatorStep st ev t n) (ev2, t2, n2)
    refine ⟨st0, ev0, t0, n0, ?_⟩
    rw [← heq]
    simp [aggregatorRun]

/-- C2: over any sequence of `N` aggregator invocations on the same trace
(against a reliable store, the accepted sequential model), the `errors`
list afterwards has length exactly the initial length plus `N` — in
particular at least `N`, and entries are never removed — and after each
individual invocation `errorSummary.totalErrors` equals the length of the
`errors` list that invocation wrote, with `errorSummary.lastError` the
entry just appended (the list's last element). -/
theorem aggregator_append_only (st : TraceState)
    (evs : List (ErrorEvent × Option String × String)) :
    (aggregatorRun st evs).errors.length = st.errors.length + evs.length
    ∧ evs.length ≤ (aggregatorRun st evs).errors.length
    ∧ ∀ k, k < evs.length → aggSummaryOk (aggregatorRun st (evs.take (k + 1))) := by
  refine ⟨aggregatorRun_errors_length st evs, ?_, ?_⟩
  · rw [aggregatorRun_errors_length]
    omega
  · intro k hk
    cases evs with
    | nil => simp at hk
    | cons hd tl =>
      rw [List.take_succ_cons]
      obtain ⟨st0, ev0, t0, n0, heq⟩ := aggregatorRun_cons_last st hd (tl.take k)
      rw [heq]
      exact aggSummaryOk_step st0 ev0 t0 n0

/-- The two-invocation event sequence of the C2 witness. -/
def witnessEvs : List (ErrorEvent × Option String × String) :=
  [(scenarioErrEvent, some "final.title.generation.error", "2026-02-01T00:00:00Z"),
   ({ traceId := some "t1", error := some "quota exceeded" },
    some "youtube.upload.error", "2026-02-01T00:00:09Z")]

/-- Witness for `aggregator_append_only`: two invocations leave at least
two errors, and the summary invariant holds after the first. -/
theorem aggregator_append_only_witness :
    (2 : Nat) ≤ (aggregatorRun scenarioPre witnessEvs).errors.length
    ∧ aggSummaryOk (aggregatorRun scenarioPre (witnessEvs.take 1)) :=
  ⟨(aggregator_append_only scenarioPre witnessEvs).2.1,
   (aggregator_append_only scenarioPre witnessEvs).2.2 0 (by decide)⟩

end VideoPipeline
